import Mathlib

/-!
Verification of the MTR_TRADE_BOT scheduling / position-monitoring core.

This file gives a shallow embedding, translated from the TypeScript
sources, of:

* `src/utils/scheduler.ts` — the `TaskScheduler` class: task registration,
  the polling loop with timeout abandonment, and `executeTask`'s
  success/failure bookkeeping (exponential-backoff retry);
* `src/src/utils/positionMonitor.ts` — the `PositionMonitor` class:
  `fetchPositionStatus`, `savePositionStatus`, `checkForNotifications`,
  `checkPositionStatus`, and `getChatIdForWallet`;
* `src/src/models/PositionStore.ts` — `FilePositionStorage`:
  `createPosition`, `updatePosition`, `savePositionHistory`,
  `serializePosition` / `deserializePosition`;
* `src/models/UserWalletMap.ts` — `getChatIdsByWallet`.

Modelling conventions:

* Wall-clock instants are `Nat` (milliseconds since epoch); the external
  clock is passed in explicitly wherever the source calls `Date.now()` or
  `new Date()`.
* `BN` (bn.js arbitrary-precision integers) values are `Nat`; JavaScript
  number-valued prices are `Rat` (price arithmetic in the claims under
  study is exact comparison only).
* TypeScript fields that can be `undefined`/`null` at runtime are
  `Option`; JavaScript truthiness tests on them are translated as the
  corresponding `Option`/zero tests.
* JavaScript `!==` on *objects* (the BN fee/reward objects) is reference
  inequality.  An object reference is modelled as `Ref α`: an allocation
  identifier together with the carried value; `!==` compares allocation
  identifiers.  A fetch produces freshly allocated objects, so two
  distinct fetches never share an allocation identifier.
* Asynchronous execution is modelled by an explicit event alphabet
  (`SchedEv`) acting on a scheduler state; a callback in flight is a unit
  of the `inflight` counter, and its later settlement is an explicit
  event that runs `executeTask`'s post-`await` bookkeeping, exactly as
  the JavaScript continuation does.
-/

namespace MTR

/-- The mutable per-task record of `TaskScheduler` (interface
`ScheduledTask`), restricted to the fields the scheduler itself reads and
writes.  `running = true` models `runningPromise` being present. -/
structure Task where
  interval : Nat
  enabled : Bool
  lastRunTime : Option Nat
  nextRunTime : Option Nat
  retryAttempts : Nat
  maxRetries : Nat
  retryDelay : Nat
  timeout : Option Nat
  running : Bool
deriving Repr, DecidableEq

/-- Model of `TaskScheduler.registerTask`: the freshly stored task, with
`retryAttempts := 0` and `nextRunTime := now + interval`. -/
def registerTask (interval : Nat) (enabled : Bool) (maxRetries retryDelay : Nat)
    (timeout : Option Nat) (now : Nat) : Task :=
  { interval := interval, enabled := enabled, lastRunTime := none,
    nextRunTime := some (now + interval), retryAttempts := 0,
    maxRetries := maxRetries, retryDelay := retryDelay, timeout := timeout,
    running := false }

/-- The synchronous prefix of `TaskScheduler.executeTask`: record
`lastRunTime = now`, compute `nextRunTime = now + interval` immediately,
and mark the task running (`task.runningPromise = task.fn()`). -/
def executeTaskStart (t : Task) (now : Nat) : Task :=
  { t with
      lastRunTime := some now,
      nextRunTime := some (now + t.interval),
      running := true }

/-- Result of the post-`await` half of `executeTask`: the updated task plus
which of the two events (`taskComplete` / `taskFailed`) was emitted. -/
structure SettleResult where
  task : Task
  taskCompleteEmitted : Bool
  taskFailedEmitted : Bool
deriving Repr, DecidableEq

/-- Success branch of `executeTask` after `await task.runningPromise`:
reset `retryAttempts`, delete `runningPromise`, emit `taskComplete`. -/
def settleSuccess (t : Task) : SettleResult :=
  { task := { t with retryAttempts := 0, running := false },
    taskCompleteEmitted := true, taskFailedEmitted := false }

/-- Failure (catch) branch of `executeTask`: delete `runningPromise`; if
`retryAttempts < maxRetries`, increment the counter and schedule the retry
at `Date.now() + retryDelay * 2 ^ (retryAttempts - 1)` (with the already
incremented counter); otherwise reset the counter and emit `taskFailed`.
`now` is the value of `Date.now()` at the failure. -/
def settleFailure (t : Task) (now : Nat) : SettleResult :=
  if t.retryAttempts < t.maxRetries then
    { task :=
        { t with
            running := false,
            retryAttempts := t.retryAttempts + 1,
            nextRunTime := some (now + t.retryDelay * 2 ^ (t.retryAttempts + 1 - 1)) },
      taskCompleteEmitted := false, taskFailedEmitted := false }
  else
    { task := { t with running := false, retryAttempts := 0 },
      taskCompleteEmitted := false, taskFailedEmitted := true }

/-- Elapsed time since `lastRunTime` as computed in `TaskScheduler.poll`
(`task.lastRunTime ? now - lastRunTime : 0`). -/
def elapsedSinceRun (t : Task) (now : Nat) : Nat :=
  match t.lastRunTime with
  | some l => now - l
  | none => 0

/-- First if-block of the per-task body of `TaskScheduler.poll`: when the
task is running and has a truthy (nonzero) timeout and the elapsed time
exceeds it, delete `runningPromise` and reschedule
`nextRunTime = now + interval` (the stuck execution is abandoned). -/
def pollTimeoutCheck (t : Task) (now : Nat) : Task :=
  match t.running, t.timeout with
  | true, some tmo =>
      if 0 < tmo ∧ tmo < elapsedSinceRun t now then
        { t with running := false, nextRunTime := some (now + t.interval) }
      else t
  | _, _ => t

/-- Second if-block of the per-task body of `TaskScheduler.poll`: when the
task is not running and `nextRunTime` has passed, enter `executeTask`
(fire-and-forget).  Returns the updated task and whether an execution was
dispatched. -/
def pollDispatch (t : Task) (now : Nat) : Task × Bool :=
  match t.running, t.nextRunTime with
  | false, some nrt =>
      if nrt ≤ now then (executeTaskStart t now, true) else (t, false)
  | _, _ => (t, false)

/-- One iteration of `TaskScheduler.poll` for a single task at wall-clock
`now`: skip disabled tasks, run the timeout check, then the dispatch
check. -/
def pollTask (t : Task) (now : Nat) : Task × Bool :=
  if ¬ t.enabled then (t, false) else pollDispatch (pollTimeoutCheck t now) now

/-- State of the scheduler, restricted to a single task id: the stored
task record together with the number of executions of that task's callback
currently in flight (dispatched and not yet settled). -/
structure SchedState where
  task : Task
  inflight : Nat
deriving Repr, DecidableEq

/-- Events acting on a task's scheduler state: a poll cycle, a
`runTaskNow` call, and the settlement (resolution / rejection) of one
in-flight callback execution.  Each carries the wall-clock instant. -/
inductive SchedEv where
  | poll (now : Nat)
  | runNow (now : Nat)
  | settleOk (now : Nat)
  | settleFail (now : Nat)
deriving Repr, DecidableEq

/-- Step function of the scheduler transition system.  `poll` follows
`TaskScheduler.poll`; `runNow` follows `TaskScheduler.runTaskNow`, which
calls `executeTask` without consulting the running marker; a settle event
is the post-`await` continuation of one in-flight `executeTask`, which
runs against the shared task record regardless of whether the scheduler
still tracks that execution (a settle with nothing in flight is a no-op
event). -/
def schedStep (s : SchedState) (e : SchedEv) : SchedState :=
  match e with
  | .poll now =>
      let r := pollTask s.task now
      { task := r.1, inflight := s.inflight + (if r.2 then 1 else 0) }
  | .runNow now =>
      { task := executeTaskStart s.task now, inflight := s.inflight + 1 }
  | .settleOk _ =>
      if s.inflight = 0 then s
      else { task := (settleSuccess s.task).task, inflight := s.inflight - 1 }
  | .settleFail now =>
      if s.inflight = 0 then s
      else { task := (settleFailure s.task now).task, inflight := s.inflight - 1 }

/-- Run a trace of scheduler events from a state. -/
def schedRun (s : SchedState) : List SchedEv → SchedState
  | [] => s
  | e :: es => schedRun (schedStep s e) es

/-- Initial scheduler state for a freshly registered task. -/
def schedInit (interval : Nat) (maxRetries retryDelay : Nat) (timeout : Option Nat)
    (now : Nat) : SchedState :=
  { task := registerTask interval true maxRetries retryDelay timeout now, inflight := 0 }

/-- Whether an event is a `runTaskNow` call. -/
def SchedEv.isRunNow : SchedEv → Bool
  | .runNow _ => true
  | _ => false

/-- The retry counter stays within the retry budget and the budget is
untouched by execution. -/
def RetryInv (m : Nat) (s : SchedState) : Prop :=
  s.task.maxRetries = m ∧ s.task.retryAttempts ≤ m

/-- Invariant for timeout-free, poll-driven traces: the in-flight counter
matches the running marker. -/
def SingleFlightInv (s : SchedState) : Prop :=
  s.task.timeout = none ∧ s.inflight = (if s.task.running then 1 else 0)

/-- Claim C2 as stated: for every registered task and every sequence of
poll cycles, `runTaskNow` calls, and task completions, at most one
execution of the task is outstanding at any time, and
`retryAttempts ≤ maxRetries` holds. -/
def ClaimC2Statement : Prop :=
  ∀ (interval maxRetries retryDelay : Nat) (timeout : Option Nat) (t0 : Nat)
    (trace : List SchedEv),
    (schedRun (schedInit interval maxRetries retryDelay timeout t0) trace).inflight ≤ 1 ∧
    (schedRun (schedInit interval maxRetries retryDelay timeout t0) trace).task.retryAttempts
      ≤ maxRetries

/-- Claim C5 as stated: (a) once the elapsed time since `lastRunTime`
exceeds a configured timeout, the poll loop clears the running marker and
sets `nextRunTime = now + interval`; and (b) from then on, the abandoned
execution's eventual resolution or rejection has no further effect on the
scheduler's task state. -/
def ClaimC5Statement : Prop :=
  (∀ (t : Task) (now tmo : Nat), t.enabled = true → t.running = true →
    t.timeout = some tmo → 0 < tmo → tmo < elapsedSinceRun t now → 0 < t.interval →
    (pollTask t now).1.running = false ∧
    (pollTask t now).1.nextRunTime = some (now + t.interval) ∧
    (pollTask t now).2 = false) ∧
  (∀ (s : SchedState) (now : Nat), s.task.running = false → 0 < s.inflight →
    (schedStep s (SchedEv.settleFail now)).task = s.task ∧
    (schedStep s (SchedEv.settleOk now)).task = s.task)

/-- The `PositionStatus` enum. -/
inductive PositionStatus where
  | active
  | closed
  | pending
  | error
deriving Repr, DecidableEq

/-- The `TokenPair` interface. -/
structure TokenPair where
  tokenASymbol : String
  tokenBSymbol : String
  tokenAMint : String
  tokenBMint : String
  tokenADecimals : Nat
  tokenBDecimals : Nat
deriving Repr, DecidableEq

/-- A JavaScript object reference to a bn.js `BN`: an allocation
identifier together with the carried integer value.  JavaScript `!==` on
two `BN` objects is identity, modelled as inequality of `allocId`; a fetch
from the chain client allocates fresh objects, so snapshots taken by
different fetches never share an `allocId`. -/
structure BNRef where
  allocId : Nat
  val : Nat
deriving Repr, DecidableEq

/-- The fee object built by `fetchPositionStatus` (four `BN` fields). -/
structure Fees where
  pendingFeesX : BNRef
  pendingFeesY : BNRef
  totalClaimedFeesX : BNRef
  totalClaimedFeesY : BNRef
deriving Repr, DecidableEq

/-- The rewards object built by `fetchPositionStatus` (two `BN` fields). -/
structure Rewards where
  rewardOne : BNRef
  rewardTwo : BNRef
deriving Repr, DecidableEq

/-- The `lastStatus` snapshot stored on a `Position`.  The liquidity
amounts are the SDK's decimal strings (JavaScript compares them by value),
modelled by their integer value; fees and rewards are `BN` objects
(compared by reference). -/
structure LastStatus where
  activeBin : Int
  currentPrice : Rat
  binInRange : Bool
  timestamp : Nat
  currentLowerPrice : Option Rat
  currentUpperPrice : Option Rat
  liquidityX : Option Nat
  liquidityY : Option Nat
  fees : Option Fees
  rewards : Option Rewards
  lastUpdatedAt : Option Nat
deriving Repr, DecidableEq

/-- The `Position` interface.  The fields the spec calls required at
creation (pool address, token pair, bin range, wallet) are `Option`
because the JavaScript runtime does not enforce the TypeScript types:
a caller can pass `undefined` and the store keeps whatever it received. -/
structure Position where
  id : String
  poolAddress : Option String
  tokenPair : Option TokenPair
  lowerBinId : Option Int
  upperBinId : Option Int
  lowerPriceLimit : Rat
  upperPriceLimit : Rat
  initialLiquidityA : Nat
  initialLiquidityB : Nat
  sellTokenMint : Option String
  sellTokenSymbol : Option String
  sellTokenAmount : Option Nat
  buyTokenMint : Option String
  buyTokenSymbol : Option String
  expectedBuyAmount : Option Nat
  actualBuyAmount : Option Nat
  entryPrice : Option Rat
  createdAt : Nat
  updatedAt : Nat
  closedAt : Option Nat
  status : PositionStatus
  lastStatus : Option LastStatus
  userWallet : Option String
  chatId : Option Int
  positionNFT : Option String
  fee : Option Rat
  notes : Option String
deriving Repr, DecidableEq

/-- The `PositionHistory` interface.  The open-ended `metadata` map is
modelled only through the `updates` key list written by `updatePosition`
(the claims under study do not inspect any other metadata). -/
structure HistoryRecord where
  hid : String
  positionId : String
  timestamp : Nat
  eventType : String
  liquidityA : Option Nat
  liquidityB : Option Nat
  valueUSD : Option Rat
  priceAtEvent : Option Rat
  metadataUpdates : Option (List String)
deriving Repr, DecidableEq

/-- The `CreatePositionParams` interface, with the `BN | string` amount
fields already parsed to their integer value.  Required fields are
`Option` for the same runtime reason as on `Position`. -/
structure CreatePositionParams where
  poolAddress : Option String
  tokenPair : Option TokenPair
  lowerBinId : Option Int
  upperBinId : Option Int
  lowerPriceLimit : Rat
  upperPriceLimit : Rat
  initialLiquidityA : Nat
  initialLiquidityB : Nat
  userWallet : Option String
  chatId : Option Int
  sellTokenMint : Option String
  sellTokenSymbol : Option String
  sellTokenAmount : Option Nat
  buyTokenMint : Option String
  buyTokenSymbol : Option String
  expectedBuyAmount : Option Nat
  entryPrice : Option Rat
  fee : Option Rat
  notes : Option String
deriving Repr, DecidableEq

/-- A `Partial<Position>` as passed to `updatePosition`, restricted to the
fields this repository's callers update.  A `some` field is present in the
update object. -/
structure PositionUpdates where
  status : Option PositionStatus
  lastStatus : Option LastStatus
  closedAt : Option Nat
  actualBuyAmount : Option Nat
  notes : Option String
deriving Repr, DecidableEq

/-- Computes `Object.keys(updates)` for a `PositionUpdates` value. -/
def PositionUpdates.keys (u : PositionUpdates) : List String :=
  (if u.status.isSome then ["status"] else []) ++
  (if u.lastStatus.isSome then ["lastStatus"] else []) ++
  (if u.closedAt.isSome then ["closedAt"] else []) ++
  (if u.actualBuyAmount.isSome then ["actualBuyAmount"] else []) ++
  (if u.notes.isSome then ["notes"] else [])

/-- The shallow merge `{...position, ...updates}`. -/
def applyUpdates (p : Position) (u : PositionUpdates) : Position :=
  { p with
      status := u.status.getD p.status,
      lastStatus := match u.lastStatus with | some ls => some ls | none => p.lastStatus,
      closedAt := match u.closedAt with | some c => some c | none => p.closedAt,
      actualBuyAmount :=
        match u.actualBuyAmount with | some a => some a | none => p.actualBuyAmount,
      notes := match u.notes with | some n => some n | none => p.notes }

/-- Association-list lookup, mirroring `Map.get`. -/
def lookupList : List (String × Position) → String → Option Position
  | [], _ => none
  | q :: qs, i => if q.1 = i then some q.2 else lookupList qs i

/-- Association-list insert/replace, mirroring `Map.set` (replace in place
when the key exists, append otherwise). -/
def setPosList : List (String × Position) → String → Position → List (String × Position)
  | [], i, p => [(i, p)]
  | q :: qs, i, p => if q.1 = i then (i, p) :: qs else q :: setPosList qs i p

/-- The in-memory state of `FilePositionStorage`: the `positions` map (as
an ordered association list, preserving `Map` iteration order) and the
`histories` map (per-position append-only record lists). -/
structure StoreState where
  positions : List (String × Position)
  histories : String → List HistoryRecord

/-- Model of `getPositionHistory`: the per-position history list (empty when
absent). -/
def getHistory (st : StoreState) (i : String) : List HistoryRecord :=
  st.histories i

/-- Model of `savePositionHistory`: push one record onto a position's history. -/
def pushHistory (st : StoreState) (i : String) (r : HistoryRecord) : StoreState :=
  { st with histories := fun j => if j = i then st.histories j ++ [r] else st.histories j }

/-- Model of `FilePositionStorage.createPosition`: build the `Position` with a
fresh id, `createdAt = updatedAt = now`, `status = ACTIVE`, store it, and
return it.  The source performs no presence validation and writes no
history record. -/
def createPosition (st : StoreState) (params : CreatePositionParams)
    (newId : String) (now : Nat) : Except String (Position × StoreState) :=
  let p : Position :=
    { id := newId, poolAddress := params.poolAddress, tokenPair := params.tokenPair,
      lowerBinId := params.lowerBinId, upperBinId := params.upperBinId,
      lowerPriceLimit := params.lowerPriceLimit, upperPriceLimit := params.upperPriceLimit,
      initialLiquidityA := params.initialLiquidityA,
      initialLiquidityB := params.initialLiquidityB,
      sellTokenMint := params.sellTokenMint, sellTokenSymbol := params.sellTokenSymbol,
      sellTokenAmount := params.sellTokenAmount,
      buyTokenMint := params.buyTokenMint, buyTokenSymbol := params.buyTokenSymbol,
      expectedBuyAmount := params.expectedBuyAmount, actualBuyAmount := none,
      entryPrice := params.entryPrice,
      createdAt := now, updatedAt := now, closedAt := none,
      status := PositionStatus.active, lastStatus := none,
      userWallet := params.userWallet, chatId := params.chatId,
      positionNFT := none, fee := params.fee, notes := params.notes }
  Except.ok (p, { st with positions := setPosList st.positions newId p })

/-- The `"updated"` history record appended by `updatePosition`, with
metadata listing `Object.keys(updates)`. -/
def updatedRecord (i : String) (u : PositionUpdates) (now : Nat) (hid : String) :
    HistoryRecord :=
  { hid := hid, positionId := i, timestamp := now, eventType := "updated",
    liquidityA := none, liquidityB := none, valueUSD := none,
    priceAtEvent := none, metadataUpdates := some u.keys }

/-- The merged position written by `updatePosition`:
`{...position, ...updates, updatedAt: new Date()}`. -/
def mergedPosition (p : Position) (u : PositionUpdates) (now : Nat) : Position :=
  { applyUpdates p u with updatedAt := now }

/-- Model of `FilePositionStorage.updatePosition`: throw when the id is unknown;
otherwise shallow-merge the updates, bump `updatedAt`, store the merged
position, and append an `"updated"` history record whose metadata lists
`Object.keys(updates)`. -/
def updatePosition (st : StoreState) (i : String) (u : PositionUpdates)
    (now : Nat) (hid : String) : Except String StoreState :=
  match lookupList st.positions i with
  | none => Except.error ("Position with ID " ++ i ++ " not found")
  | some p =>
      let st2 := { st with positions := setPosList st.positions i (mergedPosition p u now) }
      Except.ok (pushHistory st2 i (updatedRecord i u now hid))

/-- Model of `FileUserWalletMapStorage.getChatIdsByWallet`: the chat ids of all
mappings whose wallet list contains the wallet.  The mappings table is an
association list of chat id to wallet addresses. -/
def getChatIdsByWallet (walletMap : List (Int × List String))
    (wallet : Option String) : List Int :=
  (walletMap.filter (fun m =>
    match wallet with
    | some w => m.2.contains w
    | none => false)).map (fun m => m.1)

/-- One record of `getPositionsByUserAndLbPair(...).userPositions[i]
.positionData`, restricted to the fields the monitor reads.  `BN`-typed
fields are object references. -/
structure OnChainRecord where
  lowerBinId : Int
  upperBinId : Int
  totalXAmount : Nat
  totalYAmount : Nat
  feeX : BNRef
  feeY : BNRef
  totalClaimedFeeXAmount : BNRef
  totalClaimedFeeYAmount : BNRef
  rewardOne : BNRef
  rewardTwo : BNRef
  lastUpdatedAt : Nat
deriving Repr, DecidableEq

/-- The responses of the external collaborators consumed by one
`fetchPositionStatus` call: whether the active-bin fetch throws (fatal),
the active bin id and price on success, whether anything in the enrichment
`try` block throws (caught, partial degradation), the user's on-chain
position records, and the prices of the bins returned by
`getBinsBetweenLowerAndUpperBound` (ascending by bin id). -/
structure FetchInputs where
  activeBinFetchFails : Bool
  activeBinId : Int
  activeBinPrice : Rat
  enrichmentThrows : Bool
  userPositions : List OnChainRecord
  rangeBinPrices : List Rat
deriving Repr, DecidableEq

/-- The status object returned by `fetchPositionStatus`.  Fields that the
catch branch leaves `undefined` are `Option`/`false` here. -/
structure StatusResult where
  activeBin : Int
  binInRange : Bool
  currentPrice : Rat
  timestamp : Nat
  rangeBins : Option (List Rat)
  currentLowerPrice : Option Rat
  currentUpperPrice : Option Rat
  priceRangeChanged : Bool
  onChainPosition : Bool
  liquidityX : Option Nat
  liquidityY : Option Nat
  fees : Option Fees
  rewards : Option Rewards
  lastUpdatedAt : Option Nat
  errorMsg : Option String
deriving Repr, DecidableEq

/-- The in-range test of `fetchPositionStatus`:
`activeBinId >= position.lowerBinId && activeBinId <= position.upperBinId`.
A JavaScript comparison against `undefined` is false, so the result is
false whenever a bound is absent. -/
def binInRangeCalc (p : Position) (activeBinId : Int) : Bool :=
  match p.lowerBinId, p.upperBinId with
  | some l, some u => decide (l ≤ activeBinId ∧ activeBinId ≤ u)
  | _, _ => false

/-- Model of `PositionMonitor.fetchPositionStatus`.  A failing active-bin fetch is
fatal (the rejection propagates); any failure inside the enrichment `try`
block is caught and yields the minimal status object.  On the happy path
the on-chain record matching the position's exact bin range (if any)
supplies liquidity/fees/rewards, the range-bin prices give the current
price bounds, and `priceRangeChanged` tests drift beyond 0.0001 on either
bound. -/
def fetchPositionStatus (p : Position) (inputs : FetchInputs) (now : Nat) :
    Except String StatusResult :=
  if inputs.activeBinFetchFails then Except.error "active bin fetch failed" else
  let binInRange := binInRangeCalc p inputs.activeBinId
  if inputs.enrichmentThrows then
    Except.ok
      { activeBin := inputs.activeBinId, binInRange := binInRange,
        currentPrice := inputs.activeBinPrice, timestamp := now,
        rangeBins := none, currentLowerPrice := none, currentUpperPrice := none,
        priceRangeChanged := false, onChainPosition := false,
        liquidityX := none, liquidityY := none, fees := none, rewards := none,
        lastUpdatedAt := none, errorMsg := some "enrichment failed" }
  else
    let matched := inputs.userPositions.find? (fun r =>
      decide (p.lowerBinId = some r.lowerBinId) && decide (p.upperBinId = some r.upperBinId))
    let currentLowerPrice := match inputs.rangeBinPrices.head? with
      | some q => q
      | none => 0
    let currentUpperPrice := match inputs.rangeBinPrices.getLast? with
      | some q => q
      | none => 0
    let priceRangeChanged :=
      decide ((1 : Rat)/10000 < |currentLowerPrice - p.lowerPriceLimit|) ||
      decide ((1 : Rat)/10000 < |currentUpperPrice - p.upperPriceLimit|)
    Except.ok
      { activeBin := inputs.activeBinId, binInRange := binInRange,
        currentPrice := inputs.activeBinPrice, timestamp := now,
        rangeBins :=
          if inputs.rangeBinPrices.isEmpty then none else some inputs.rangeBinPrices,
        currentLowerPrice := some currentLowerPrice,
        currentUpperPrice := some currentUpperPrice,
        priceRangeChanged := priceRangeChanged,
        onChainPosition := matched.isSome,
        liquidityX := matched.map (fun r => r.totalXAmount),
        liquidityY := matched.map (fun r => r.totalYAmount),
        fees := matched.map (fun r =>
          { pendingFeesX := r.feeX, pendingFeesY := r.feeY,
            totalClaimedFeesX := r.totalClaimedFeeXAmount,
            totalClaimedFeesY := r.totalClaimedFeeYAmount }),
        rewards := matched.map (fun r =>
          { rewardOne := r.rewardOne, rewardTwo := r.rewardTwo }),
        lastUpdatedAt := matched.map (fun r => r.lastUpdatedAt),
        errorMsg := none }

/-- The `"status_check"` history record appended by `savePositionStatus`. -/
def statusCheckRecord (p : Position) (status : StatusResult) (now : Nat)
    (hid : String) : HistoryRecord :=
  { hid := hid, positionId := p.id, timestamp := now, eventType := "status_check",
    liquidityA := status.liquidityX, liquidityB := status.liquidityY,
    valueUSD := none, priceAtEvent := some status.currentPrice,
    metadataUpdates := none }

/-- The replacement `lastStatus` snapshot written by `savePositionStatus`
(full replacement, not a merge). -/
def statusToLastStatus (status : StatusResult) (now : Nat) : LastStatus :=
  { activeBin := status.activeBin, currentPrice := status.currentPrice,
    binInRange := status.binInRange, timestamp := now,
    currentLowerPrice := status.currentLowerPrice,
    currentUpperPrice := status.currentUpperPrice,
    liquidityX := status.liquidityX, liquidityY := status.liquidityY,
    fees := status.fees, rewards := status.rewards,
    lastUpdatedAt := status.lastUpdatedAt }

/-- The `Partial<Position>` object `{ lastStatus: ... }` that
`savePositionStatus` passes to `updatePosition`. -/
def lastStatusUpdates (status : StatusResult) (now : Nat) : PositionUpdates :=
  { status := none, lastStatus := some (statusToLastStatus status now),
    closedAt := none, actualBuyAmount := none, notes := none }

/-- Model of `PositionMonitor.savePositionStatus`: append the `"status_check"`
history record, then overwrite `position.lastStatus` through
`updatePosition` (which itself appends its `"updated"` record). -/
def savePositionStatus (st : StoreState) (p : Position) (status : StatusResult)
    (now : Nat) (hid1 hid2 : String) : Except String StoreState :=
  let st1 := pushHistory st p.id (statusCheckRecord p status now hid1)
  updatePosition st1 p.id (lastStatusUpdates status now) now hid2

/-- JavaScript truthiness of a possibly-undefined number. -/
def truthyRat : Option Rat → Bool
  | some q => q != 0
  | none => false

/-- The `changes` list accumulated by trigger 3 of
`checkForNotifications`: liquidity strings are compared by value; fee and
reward `BN` objects are compared by reference (`!==`), and each comparison
group is only evaluated when both snapshots carry the objects. -/
def onChainChangesList (ls : LastStatus) (status : StatusResult) : List String :=
  (if ls.liquidityX ≠ status.liquidityX ∨ ls.liquidityY ≠ status.liquidityY
   then ["liquidity"] else []) ++
  (match status.fees, ls.fees with
   | some nf, some oldf =>
       (if oldf.pendingFeesX.allocId ≠ nf.pendingFeesX.allocId ∨
           oldf.pendingFeesY.allocId ≠ nf.pendingFeesY.allocId
        then ["pending fees"] else []) ++
       (if oldf.totalClaimedFeesX.allocId ≠ nf.totalClaimedFeesX.allocId ∨
           oldf.totalClaimedFeesY.allocId ≠ nf.totalClaimedFeesY.allocId
        then ["claimed fees"] else [])
   | _, _ => []) ++
  (match status.rewards, ls.rewards with
   | some nr, some oldr =>
       if oldr.rewardOne.allocId ≠ nr.rewardOne.allocId ∨
          oldr.rewardTwo.allocId ≠ nr.rewardTwo.allocId
       then ["rewards"] else []
   | _, _ => [])

/-- The sections of the Markdown message assembled by
`checkForNotifications`, in assembly order.  Only section identity (not
the formatted text) is modelled; the notification markers of the claims
correspond to `newPositionMonitored` ("now being monitored"),
`priceRangeChangedWarn`, `nowInRange` / `nowOutOfRange` (range flip), and
`onChainUpdates`. -/
inductive MsgSection where
  | header
  | pairLine
  | priceLine
  | yourPriceRange
  | currentMarketRange
  | inRangeLine (inRange : Bool)
  | liquiditySection
  | feesSection
  | rewardsSection
  | lastUpdatedLine
  | newPositionMonitored
  | priceRangeChangedWarn
  | nowInRange
  | nowOutOfRange
  | onChainUpdates (changes : List String)
deriving Repr, DecidableEq

/-- The message assembled by `checkForNotifications` once the pair line's
`position.tokenPair` dereference has succeeded, section by section in
source order. -/
def buildMessageSections (p : Position) (status : StatusResult) : List MsgSection :=
  [MsgSection.header, MsgSection.pairLine, MsgSection.priceLine] ++
  (if p.lowerPriceLimit != 0 && p.upperPriceLimit != 0
   then [MsgSection.yourPriceRange] else []) ++
  (if truthyRat status.currentLowerPrice && truthyRat status.currentUpperPrice
   then [MsgSection.currentMarketRange] else []) ++
  [MsgSection.inRangeLine status.binInRange] ++
  (if status.liquidityX.isSome || status.liquidityY.isSome
   then [MsgSection.liquiditySection] else []) ++
  (if status.fees.isSome then [MsgSection.feesSection] else []) ++
  (if status.rewards.isSome then [MsgSection.rewardsSection] else []) ++
  (if status.lastUpdatedAt.isSome then [MsgSection.lastUpdatedLine] else []) ++
  (if p.lastStatus.isNone then [MsgSection.newPositionMonitored] else []) ++
  (if status.priceRangeChanged then [MsgSection.priceRangeChangedWarn] else []) ++
  (match p.lastStatus with
   | some ls =>
       if ls.binInRange != status.binInRange then
         (if status.binInRange then [MsgSection.nowInRange] else [MsgSection.nowOutOfRange])
       else []
   | none => []) ++
  (if status.onChainPosition then
     match p.lastStatus with
     | some ls =>
         if (onChainChangesList ls status).isEmpty then []
         else [MsgSection.onChainUpdates (onChainChangesList ls status)]
     | none => []
   else [])

/-- Model of the message build inside `checkForNotifications`'s `try`
block: the pair line dereferences `position.tokenPair.tokenASymbol`
without a guard, so the build throws a TypeError when `tokenPair` is
absent at runtime; otherwise it yields the section list. -/
def buildMessage (p : Position) (status : StatusResult) :
    Except String (List MsgSection) :=
  match p.tokenPair with
  | none => Except.error "TypeError: tokenPair is undefined"
  | some _ => Except.ok (buildMessageSections p status)

/-- The `shouldNotify` flag of `checkForNotifications`: first check, price
range drift, range-membership flip, or a nonempty on-chain changes list. -/
def shouldNotifyCalc (p : Position) (status : StatusResult) : Bool :=
  p.lastStatus.isNone ||
  status.priceRangeChanged ||
  (match p.lastStatus with
   | some ls => ls.binInRange != status.binInRange
   | none => false) ||
  (status.onChainPosition &&
   (match p.lastStatus with
    | some ls => !(onChainChangesList ls status).isEmpty
    | none => false))

/-- Model of `PositionMonitor.getChatIdForWallet`: first the wallet-to-chat
mapping (first hit wins); when that yields nothing, fall back to the chat
id stored on the wallet's first position (`getPositionsByUser`), subject
to JavaScript truthiness (a zero chat id is skipped); `null` otherwise. -/
def getChatIdForWallet (walletMap : List (Int × List String)) (st : StoreState)
    (wallet : Option String) : Option Int :=
  match getChatIdsByWallet walletMap wallet with
  | c :: _ => some c
  | [] =>
      match (st.positions.filter (fun q => decide (q.2.userWallet = wallet))).head? with
      | some q =>
          match q.2.chatId with
          | some c => if c = 0 then none else some c
          | none => none
      | none => none

/-- Model of `PositionMonitor.checkForNotifications`.  Returns the list of
attempted notification sends (chat id and message) together with the
error that the surrounding `try`/`catch` caught and logged (the function
itself never throws).  When no bot is configured or no chat id resolves,
it returns silently; otherwise the `try` block first assembles the
message — which throws, and is caught with nothing sent, when
`position.tokenPair` is absent — and then sends it exactly once when some
trigger set `shouldNotify`. -/
def checkForNotifications (walletMap : List (Int × List String)) (st : StoreState)
    (p : Position) (status : StatusResult) (botConfigured : Bool) (sinkOk : Bool) :
    List (Int × List MsgSection) × Option String :=
  if !botConfigured then ([], none) else
  match getChatIdForWallet walletMap st p.userWallet with
  | none => ([], none)
  | some cid =>
      match buildMessage p status with
      | Except.error e => ([], some e)
      | Except.ok msg =>
          if shouldNotifyCalc p status then
            if sinkOk then ([(cid, msg)], none)
            else ([(cid, msg)], some "send failed")
          else ([], none)

/-- Model of `PositionMonitor.checkPositionStatus`: fetch the status (propagating a
fatal fetch failure), persist it (history record plus `lastStatus`
update), then evaluate notifications against the position object as it
was before the persistence step (the in-memory `position` argument). -/
def checkPositionStatus (st : StoreState) (walletMap : List (Int × List String))
    (p : Position) (inputs : FetchInputs) (botConfigured sinkOk : Bool)
    (now : Nat) (hid1 hid2 : String) :
    Except String (StoreState × List (Int × List MsgSection) × Option String) := do
  let status ← fetchPositionStatus p inputs now
  let st2 ← savePositionStatus st p status now hid1 hid2
  let r := checkForNotifications walletMap st2 p status botConfigured sinkOk
  Except.ok (st2, r.1, r.2)

/-- Whether a message carries a range-flip marker. -/
def isFlipNotification (m : List MsgSection) : Bool :=
  m.contains MsgSection.nowInRange || m.contains MsgSection.nowOutOfRange

/-- Number of range-flip notifications in a list of sends. -/
def countFlips (sends : List (Int × List MsgSection)) : Nat :=
  (sends.filter (fun s => isFlipNotification s.2)).length

/-- The sends of a `checkPositionStatus` result (none on failure). -/
def sendsOf (r : Except String (StoreState × List (Int × List MsgSection) × Option String)) :
    List (Int × List MsgSection) :=
  match r with
  | Except.ok v => v.2.1
  | Except.error _ => []

/-- Claim C3 as stated: for every position whose `lastStatus` is absent,
every successful `checkPositionStatus` call — with the bot configured and
a chat id resolving for the wallet — sends exactly one notification whose
message contains the "now being monitored" marker, regardless of the
fetched `binInRange` value. -/
def ClaimC3Statement : Prop :=
  ∀ (st : StoreState) (walletMap : List (Int × List String)) (p q : Position)
    (inputs : FetchInputs) (sinkOk : Bool) (now : Nat) (hid1 hid2 : String)
    (c : Int) (cs : List Int),
    p.lastStatus = none →
    inputs.activeBinFetchFails = false →
    lookupList st.positions p.id = some q →
    getChatIdsByWallet walletMap p.userWallet = c :: cs →
    ∃ st2 msg derr,
      checkPositionStatus st walletMap p inputs true sinkOk now hid1 hid2 =
        Except.ok (st2, [(c, msg)], derr) ∧
      MsgSection.newPositionMonitored ∈ msg

/-- A decimal string for an arbitrary-precision integer (`BN.toString()`),
as its little-endian digit list. -/
def decimalDigits (n : Nat) : List Nat := Nat.digits 10 n

/-- Parsing a decimal string back to the integer (`new BN(s)`). -/
def decimalValue (l : List Nat) : Nat := Nat.ofDigits 10 l

/-- The `lastStatus` shape actually persisted by `serializePosition`: only
`activeBin`, `currentPrice`, `binInRange` and the ISO-8601 `timestamp`. -/
structure SerializedLastStatus where
  activeBin : Int
  currentPrice : Rat
  binInRange : Bool
  timestamp : Nat
deriving Repr, DecidableEq

/-- The on-disk JSON shape of a `Position`: `BN` amounts as decimal
strings, dates as ISO-8601 instants (bijective with their epoch
milliseconds, kept as `Nat` here), and the reduced `lastStatus`. -/
structure SerializedPosition where
  id : String
  poolAddress : Option String
  tokenPair : Option TokenPair
  lowerBinId : Option Int
  upperBinId : Option Int
  lowerPriceLimit : Rat
  upperPriceLimit : Rat
  initialLiquidityA : List Nat
  initialLiquidityB : List Nat
  sellTokenMint : Option String
  sellTokenSymbol : Option String
  sellTokenAmount : Option (List Nat)
  buyTokenMint : Option String
  buyTokenSymbol : Option String
  expectedBuyAmount : Option (List Nat)
  actualBuyAmount : Option (List Nat)
  entryPrice : Option Rat
  createdAt : Nat
  updatedAt : Nat
  closedAt : Option Nat
  status : PositionStatus
  lastStatus : Option SerializedLastStatus
  userWallet : Option String
  chatId : Option Int
  positionNFT : Option String
  fee : Option Rat
  notes : Option String
deriving Repr, DecidableEq

/-- Model of `FilePositionStorage.serializePosition`: spread the position, convert
`BN` amounts to decimal strings and dates to ISO-8601, map `chatId`
through `position.chatId ? Number(position.chatId) : undefined`
(JavaScript truthiness drops a zero chat id), and rebuild `lastStatus`
keeping only its four base fields. -/
def serializePosition (p : Position) : SerializedPosition :=
  { id := p.id, poolAddress := p.poolAddress, tokenPair := p.tokenPair,
    lowerBinId := p.lowerBinId, upperBinId := p.upperBinId,
    lowerPriceLimit := p.lowerPriceLimit, upperPriceLimit := p.upperPriceLimit,
    initialLiquidityA := decimalDigits p.initialLiquidityA,
    initialLiquidityB := decimalDigits p.initialLiquidityB,
    sellTokenMint := p.sellTokenMint, sellTokenSymbol := p.sellTokenSymbol,
    sellTokenAmount := p.sellTokenAmount.map decimalDigits,
    buyTokenMint := p.buyTokenMint, buyTokenSymbol := p.buyTokenSymbol,
    expectedBuyAmount := p.expectedBuyAmount.map decimalDigits,
    actualBuyAmount := p.actualBuyAmount.map decimalDigits,
    entryPrice := p.entryPrice,
    createdAt := p.createdAt, updatedAt := p.updatedAt, closedAt := p.closedAt,
    status := p.status,
    lastStatus := p.lastStatus.map (fun ls =>
      { activeBin := ls.activeBin, currentPrice := ls.currentPrice,
        binInRange := ls.binInRange, timestamp := ls.timestamp }),
    userWallet := p.userWallet,
    chatId := match p.chatId with
      | some c => if c = 0 then none else some c
      | none => none,
    positionNFT := p.positionNFT, fee := p.fee, notes := p.notes }

/-- Model of `FilePositionStorage.deserializePosition`: spread the record, parse
the decimal strings back to `BN`s and the ISO-8601 strings back to dates,
map `chatId` through the same truthy conversion, and rebuild `lastStatus`
from the four persisted fields (the enrichment fields stay absent). -/
def deserializePosition (d : SerializedPosition) : Position :=
  { id := d.id, poolAddress := d.poolAddress, tokenPair := d.tokenPair,
    lowerBinId := d.lowerBinId, upperBinId := d.upperBinId,
    lowerPriceLimit := d.lowerPriceLimit, upperPriceLimit := d.upperPriceLimit,
    initialLiquidityA := decimalValue d.initialLiquidityA,
    initialLiquidityB := decimalValue d.initialLiquidityB,
    sellTokenMint := d.sellTokenMint, sellTokenSymbol := d.sellTokenSymbol,
    sellTokenAmount := d.sellTokenAmount.map decimalValue,
    buyTokenMint := d.buyTokenMint, buyTokenSymbol := d.buyTokenSymbol,
    expectedBuyAmount := d.expectedBuyAmount.map decimalValue,
    actualBuyAmount := d.actualBuyAmount.map decimalValue,
    entryPrice := d.entryPrice,
    createdAt := d.createdAt, updatedAt := d.updatedAt, closedAt := d.closedAt,
    status := d.status,
    lastStatus := d.lastStatus.map (fun s =>
      { activeBin := s.activeBin, currentPrice := s.currentPrice,
        binInRange := s.binInRange, timestamp := s.timestamp,
        currentLowerPrice := none, currentUpperPrice := none,
        liquidityX := none, liquidityY := none,
        fees := none, rewards := none, lastUpdatedAt := none }),
    userWallet := d.userWallet,
    chatId := match d.chatId with
      | some c => if c = 0 then none else some c
      | none => none,
    positionNFT := d.positionNFT, fee := d.fee, notes := d.notes }

/-- A concrete position used by the witnesses below. -/
def wPos : Position :=
  { id := "pid", poolAddress := some "pool", tokenPair := none,
    lowerBinId := some 1, upperBinId := some 2,
    lowerPriceLimit := 1, upperPriceLimit := 2, initialLiquidityA := 5,
    initialLiquidityB := 6, sellTokenMint := none, sellTokenSymbol := none,
    sellTokenAmount := none, buyTokenMint := none, buyTokenSymbol := none,
    expectedBuyAmount := none, actualBuyAmount := none, entryPrice := none,
    createdAt := 0, updatedAt := 0, closedAt := none,
    status := PositionStatus.active, lastStatus := none,
    userWallet := some "w", chatId := none, positionNFT := none,
    fee := none, notes := none }

/-- A concrete store holding only `wPos`. -/
def wStore : StoreState :=
  { positions := [("pid", wPos)], histories := fun _ => [] }

/-- A concrete token pair for positions that carry one. -/
def tpW : TokenPair :=
  { tokenASymbol := "SOL", tokenBSymbol := "USDC", tokenAMint := "mintA",
    tokenBMint := "mintB", tokenADecimals := 9, tokenBDecimals := 6 }

/-- A concrete position carrying a token pair. -/
def wPosT : Position := { wPos with id := "pt", tokenPair := some tpW }

/-- A concrete store holding only `wPosT`. -/
def wStoreT : StoreState :=
  { positions := [("pt", wPosT)], histories := fun _ => [] }

/-- A concrete update object used by the witnesses below. -/
def wUpd : PositionUpdates :=
  { status := some PositionStatus.closed, lastStatus := none, closedAt := none,
    actualBuyAmount := none, notes := none }

/-- A concrete fetched status used by the witnesses below. -/
def wStatus : StatusResult :=
  { activeBin := 1, binInRange := true, currentPrice := 3, timestamp := 7,
    rangeBins := none, currentLowerPrice := none, currentUpperPrice := none,
    priceRangeChanged := false, onChainPosition := false,
    liquidityX := none, liquidityY := none, fees := none, rewards := none,
    lastUpdatedAt := none, errorMsg := none }

/-- A concrete collaborator response set used by the witnesses below. -/
def wInputs : FetchInputs :=
  { activeBinFetchFails := false, activeBinId := 1, activeBinPrice := 3,
    enrichmentThrows := true, userPositions := [], rangeBinPrices := [] }

/-- Spec-side notion of "no on-chain delta": all on-chain liquidity, fee
and reward VALUES of the new snapshot equal the previous snapshot's. -/
def ValueEqOnChain (ls : LastStatus) (s : StatusResult) : Prop :=
  ls.liquidityX = s.liquidityX ∧ ls.liquidityY = s.liquidityY ∧
  (match s.fees, ls.fees with
   | some nf, some oldf =>
       oldf.pendingFeesX.val = nf.pendingFeesX.val ∧
       oldf.pendingFeesY.val = nf.pendingFeesY.val ∧
       oldf.totalClaimedFeesX.val = nf.totalClaimedFeesX.val ∧
       oldf.totalClaimedFeesY.val = nf.totalClaimedFeesY.val
   | _, _ => True) ∧
  (match s.rewards, ls.rewards with
   | some nr, some oldr =>
       oldr.rewardOne.val = nr.rewardOne.val ∧ oldr.rewardTwo.val = nr.rewardTwo.val
   | _, _ => True)

/-- Claim C4 as stated: with `lastStatus` present, `binInRange` unchanged,
`priceRangeChanged` false and no on-chain value differing from the
previous snapshot, `checkForNotifications` sends zero notifications. -/
def ClaimC4Statement : Prop :=
  ∀ (walletMap : List (Int × List String)) (st : StoreState) (p : Position)
    (ls : LastStatus) (status : StatusResult) (bot sinkOk : Bool),
    p.lastStatus = some ls →
    status.binInRange = ls.binInRange →
    status.priceRangeChanged = false →
    ValueEqOnChain ls status →
    (checkForNotifications walletMap st p status bot sinkOk).1 = []

/-- The fee objects of the previous snapshot in the C4 counterexample
(allocation ids 0 to 3). -/
def feesOld : Fees :=
  { pendingFeesX := { allocId := 0, val := 1 },
    pendingFeesY := { allocId := 1, val := 2 },
    totalClaimedFeesX := { allocId := 2, val := 3 },
    totalClaimedFeesY := { allocId := 3, val := 4 } }

/-- The fee objects of the fresh fetch in the C4 counterexample: identical
values, freshly allocated (ids 10 to 13), as any real fetch produces. -/
def feesNew : Fees :=
  { pendingFeesX := { allocId := 10, val := 1 },
    pendingFeesY := { allocId := 11, val := 2 },
    totalClaimedFeesX := { allocId := 12, val := 3 },
    totalClaimedFeesY := { allocId := 13, val := 4 } }

/-- The previous snapshot of the C4 counterexample. -/
def lsC4 : LastStatus :=
  { activeBin := 1, currentPrice := 3, binInRange := true, timestamp := 0,
    currentLowerPrice := none, currentUpperPrice := none,
    liquidityX := some 100, liquidityY := some 200,
    fees := some feesOld, rewards := none, lastUpdatedAt := none }

/-- The freshly fetched status of the C4 counterexample. -/
def sC4 : StatusResult :=
  { activeBin := 1, binInRange := true, currentPrice := 3, timestamp := 5,
    rangeBins := none, currentLowerPrice := none, currentUpperPrice := none,
    priceRangeChanged := false, onChainPosition := true,
    liquidityX := some 100, liquidityY := some 200,
    fees := some feesNew, rewards := none, lastUpdatedAt := none,
    errorMsg := none }

/-- The position of the C4 counterexample. -/
def pC4 : Position := { wPos with id := "p4", tokenPair := some tpW, lastStatus := some lsC4 }

/-- Code-side notion of "no on-chain delta": liquidity strings equal by
value, and fee/reward objects identical by reference (or absent on a
side, in which case the source skips the comparison). -/
def RefEqOnChain (ls : LastStatus) (s : StatusResult) : Prop :=
  ls.liquidityX = s.liquidityX ∧ ls.liquidityY = s.liquidityY ∧
  (match s.fees, ls.fees with
   | some nf, some oldf =>
       oldf.pendingFeesX.allocId = nf.pendingFeesX.allocId ∧
       oldf.pendingFeesY.allocId = nf.pendingFeesY.allocId ∧
       oldf.totalClaimedFeesX.allocId = nf.totalClaimedFeesX.allocId ∧
       oldf.totalClaimedFeesY.allocId = nf.totalClaimedFeesY.allocId
   | _, _ => True) ∧
  (match s.rewards, ls.rewards with
   | some nr, some oldr =>
       oldr.rewardOne.allocId = nr.rewardOne.allocId ∧
       oldr.rewardTwo.allocId = nr.rewardTwo.allocId
   | _, _ => True)

/-- The status used by the C4 witness: the same fee objects (by
reference) as the previous snapshot. -/
def sC4b : StatusResult := { sC4 with fees := some feesOld }

/-- One of the fields the spec calls required is absent at runtime. -/
def RequiredFieldAbsent (params : CreatePositionParams) : Prop :=
  params.poolAddress = none ∨ params.tokenPair = none ∨
  params.lowerBinId = none ∨ params.upperBinId = none ∨ params.userWallet = none

/-- Whether an `Except` result is a thrown error. -/
def exceptFails {α : Type} (e : Except String α) : Bool :=
  match e with
  | Except.error _ => true
  | Except.ok _ => false

/-- Claim C7's validation sentence as stated: `createPosition` fails with
a validation error whenever any required field is absent. -/
def ClaimC7Statement : Prop :=
  ∀ (st : StoreState) (params : CreatePositionParams) (newId : String) (now : Nat),
    RequiredFieldAbsent params →
    exceptFails (createPosition st params newId now) = true

/-- Creation parameters with every required field absent. -/
def badParams : CreatePositionParams :=
  { poolAddress := none, tokenPair := none, lowerBinId := none, upperBinId := none,
    lowerPriceLimit := 1, upperPriceLimit := 2, initialLiquidityA := 5,
    initialLiquidityB := 6, userWallet := none, chatId := none,
    sellTokenMint := none, sellTokenSymbol := none, sellTokenAmount := none,
    buyTokenMint := none, buyTokenSymbol := none, expectedBuyAmount := none,
    entryPrice := none, fee := none, notes := none }

/-- Claim C8 as stated: every `Position` round-trips exactly through
`serializePosition` / `deserializePosition`, including one whose
`lastStatus` carries the optional price-bound and on-chain enrichment. -/
def ClaimC8Statement : Prop :=
  ∀ p : Position, deserializePosition (serializePosition p) = p

/-- A position whose `lastStatus` carries the optional current price
bounds and on-chain liquidity. -/
def lsC8Bad : LastStatus :=
  { activeBin := 1, currentPrice := 3, binInRange := true, timestamp := 4,
    currentLowerPrice := some 1, currentUpperPrice := some 2,
    liquidityX := some 7, liquidityY := some 8, fees := none,
    rewards := none, lastUpdatedAt := none }

def c8Bad : Position := { wPos with lastStatus := some lsC8Bad }

/-- The `lastStatus` (when present) carries none of the optional
enrichment fields. -/
def EnrichmentFree (p : Position) : Prop :=
  match p.lastStatus with
  | some ls => ls.currentLowerPrice = none ∧ ls.currentUpperPrice = none ∧
      ls.liquidityX = none ∧ ls.liquidityY = none ∧ ls.fees = none ∧
      ls.rewards = none ∧ ls.lastUpdatedAt = none
  | none => True

/-- A fully populated position satisfying the amended C8 hypotheses. -/
def lsC8Good : LastStatus :=
  { activeBin := 1, currentPrice := 3, binInRange := true, timestamp := 4,
    currentLowerPrice := none, currentUpperPrice := none,
    liquidityX := none, liquidityY := none, fees := none,
    rewards := none, lastUpdatedAt := none }

def c8Good : Position :=
  { wPos with
      chatId := some 9,
      sellTokenAmount := some 123,
      expectedBuyAmount := some 456,
      actualBuyAmount := some 789,
      lastStatus := some lsC8Good }

/-- The position of the C9 concrete scenario: bin range 100 to 200. -/
def c9Pos : Position :=
  { wPos with
      id := "p9",
      tokenPair := some tpW,
      lowerBinId := some 100,
      upperBinId := some 200,
      userWallet := some "w9" }

/-- The store of the C9 scenario. -/
def c9Store : StoreState := { positions := [("p9", c9Pos)], histories := fun _ => [] }

/-- The wallet-to-chat mapping of the C9 scenario. -/
def c9Map : List (Int × List String) := [(11, ["w9"])]

/-- First fetch of the C9 scenario: active bin 150. -/
def c9In1 : FetchInputs :=
  { activeBinFetchFails := false, activeBinId := 150, activeBinPrice := 3,
    enrichmentThrows := true, userPositions := [], rangeBinPrices := [] }

/-- Second fetch of the C9 scenario: active bin 250. -/
def c9In2 : FetchInputs := { c9In1 with activeBinId := 250 }

/-- First reconciliation of the C9 scenario. -/
def c9Run1 : Except String (StoreState × List (Int × List MsgSection) × Option String) :=
  checkPositionStatus c9Store c9Map c9Pos c9In1 true true 10 "a1" "a2"

/-- Store after the first reconciliation. -/
def c9St1 : StoreState :=
  match c9Run1 with
  | Except.ok r => r.1
  | Except.error _ => c9Store

/-- The position as re-read from the store before the second check. -/
def c9P1 : Position := (lookupList c9St1.positions "p9").getD c9Pos

/-- Second reconciliation of the C9 scenario. -/
def c9Run2 : Except String (StoreState × List (Int × List MsgSection) × Option String) :=
  checkPositionStatus c9St1 c9Map c9P1 c9In2 true true 20 "a3" "a4"

/-- The fetched `binInRange` of a fetch result (false on failure). -/
def binInRangeOf (r : Except String StatusResult) : Bool :=
  match r with
  | Except.ok s => s.binInRange
  | Except.error _ => false

/-! ## Theorems -/

theorem pollTimeoutCheck_retry (t : Task) (now : Nat) :
    (pollTimeoutCheck t now).retryAttempts = t.retryAttempts ∧
    (pollTimeoutCheck t now).maxRetries = t.maxRetries := by
  unfold pollTimeoutCheck
  cases hr : t.running <;> cases ht : t.timeout <;> simp_all
  split <;> simp

theorem pollDispatch_retry (t : Task) (now : Nat) :
    (pollDispatch t now).1.retryAttempts = t.retryAttempts ∧
    (pollDispatch t now).1.maxRetries = t.maxRetries := by
  unfold pollDispatch
  cases hr : t.running <;> cases ht : t.nextRunTime <;> simp_all [executeTaskStart]
  split <;> simp [executeTaskStart]

theorem schedStep_poll (s : SchedState) (now : Nat) :
    schedStep s (SchedEv.poll now) =
      { task := (pollTask s.task now).1,
        inflight := s.inflight + (if (pollTask s.task now).2 then 1 else 0) } := rfl

theorem schedStep_runNow (s : SchedState) (now : Nat) :
    schedStep s (SchedEv.runNow now) =
      { task := executeTaskStart s.task now, inflight := s.inflight + 1 } := rfl

theorem schedStep_settleOk (s : SchedState) (now : Nat) :
    schedStep s (SchedEv.settleOk now) =
      if s.inflight = 0 then s
      else { task := (settleSuccess s.task).task, inflight := s.inflight - 1 } := rfl

theorem schedStep_settleFail (s : SchedState) (now : Nat) :
    schedStep s (SchedEv.settleFail now) =
      if s.inflight = 0 then s
      else { task := (settleFailure s.task now).task, inflight := s.inflight - 1 } := rfl

theorem pollTask_retry (t : Task) (now : Nat) :
    (pollTask t now).1.retryAttempts = t.retryAttempts ∧
    (pollTask t now).1.maxRetries = t.maxRetries := by
  unfold pollTask
  by_cases hen : t.enabled
  · simp only [hen, not_true_eq_false, if_false]
    exact ⟨((pollDispatch_retry _ now).1).trans (pollTimeoutCheck_retry t now).1,
      ((pollDispatch_retry _ now).2).trans (pollTimeoutCheck_retry t now).2⟩
  · simp [hen]

theorem settleFailure_retry_le (t : Task) (now : Nat) :
    (settleFailure t now).task.retryAttempts ≤ t.maxRetries := by
  unfold settleFailure
  split
  · next hlt => simpa using hlt
  · simp

theorem settleFailure_max (t : Task) (now : Nat) :
    (settleFailure t now).task.maxRetries = t.maxRetries := by
  unfold settleFailure
  split <;> simp

theorem retryInv_step (m : Nat) (s : SchedState) (e : SchedEv)
    (h : RetryInv m s) : RetryInv m (schedStep s e) := by
  obtain ⟨hm, hle⟩ := h
  unfold RetryInv
  cases e with
  | poll now =>
      rw [schedStep_poll]
      refine ⟨((pollTask_retry s.task now).2).trans hm, ?_⟩
      show (pollTask s.task now).1.retryAttempts ≤ m
      rw [(pollTask_retry s.task now).1]
      exact hle
  | runNow now =>
      rw [schedStep_runNow]
      exact ⟨by simpa [executeTaskStart] using hm, by simpa [executeTaskStart] using hle⟩
  | settleOk now =>
      rw [schedStep_settleOk]
      split
      · exact ⟨hm, hle⟩
      · exact ⟨by simp [settleSuccess, hm], by simp [settleSuccess]⟩
  | settleFail now =>
      rw [schedStep_settleFail]
      split
      · exact ⟨hm, hle⟩
      · exact ⟨(settleFailure_max s.task now).trans hm,
          le_of_le_of_eq (settleFailure_retry_le s.task now) hm⟩

theorem retryInv_run (m : Nat) (s : SchedState) (tr : List SchedEv)
    (h : RetryInv m s) : RetryInv m (schedRun s tr) := by
  induction tr generalizing s with
  | nil => exact h
  | cons e es ih => exact ih _ (retryInv_step m s e h)

theorem settleFailure_running (t : Task) (now : Nat) :
    (settleFailure t now).task.running = false := by
  unfold settleFailure
  split <;> simp

theorem settleFailure_timeout (t : Task) (now : Nat) :
    (settleFailure t now).task.timeout = t.timeout := by
  unfold settleFailure
  split <;> simp

theorem singleFlight_step (s : SchedState) (e : SchedEv)
    (h : SingleFlightInv s) (he : e.isRunNow = false) :
    SingleFlightInv (schedStep s e) := by
  obtain ⟨htm, hfl⟩ := h
  unfold SingleFlightInv
  cases e with
  | poll now =>
      rw [schedStep_poll]
      have h1 : pollTimeoutCheck s.task now = s.task := by
        unfold pollTimeoutCheck
        cases hr : s.task.running <;> simp [htm]
      by_cases hen : s.task.enabled
      · have h2 : pollTask s.task now = pollDispatch s.task now := by
          unfold pollTask
          simp [hen, h1]
        rw [h2]
        cases hr : s.task.running with
        | true =>
            have h3 : pollDispatch s.task now = (s.task, false) := by
              unfold pollDispatch
              simp [hr]
            rw [h3]
            simp [hr] at hfl
            simp [htm, hr, hfl]
        | false =>
            simp [hr] at hfl
            cases hn : s.task.nextRunTime with
            | none =>
                have h3 : pollDispatch s.task now = (s.task, false) := by
                  unfold pollDispatch
                  simp [hr, hn]
                rw [h3]
                simp [htm, hr, hfl]
            | some nrt =>
                by_cases hd : nrt ≤ now
                · have h3 : pollDispatch s.task now = (executeTaskStart s.task now, true) := by
                    unfold pollDispatch
                    simp [hr, hn, hd]
                  rw [h3]
                  simp [executeTaskStart, htm, hfl]
                · have h3 : pollDispatch s.task now = (s.task, false) := by
                    unfold pollDispatch
                    simp [hr, hn, hd]
                  rw [h3]
                  simp [htm, hr, hfl]
      · have h2 : pollTask s.task now = (s.task, false) := by
          unfold pollTask
          simp [hen]
        rw [h2]
        simp [htm, hfl]
  | runNow now => simp [SchedEv.isRunNow] at he
  | settleOk now =>
      rw [schedStep_settleOk]
      split
      · exact ⟨htm, hfl⟩
      · next hnz =>
          cases hr : s.task.running with
          | false => rw [hr] at hfl; simp at hfl; omega
          | true =>
              rw [hr] at hfl; simp at hfl
              simp [settleSuccess, htm, hfl]
  | settleFail now =>
      rw [schedStep_settleFail]
      split
      · exact ⟨htm, hfl⟩
      · next hnz =>
          cases hr : s.task.running with
          | false => rw [hr] at hfl; simp at hfl; omega
          | true =>
              rw [hr] at hfl; simp at hfl
              simp [settleFailure_running, settleFailure_timeout, htm, hfl]

theorem singleFlight_run (s : SchedState) (tr : List SchedEv)
    (h : SingleFlightInv s) (hn : ∀ e ∈ tr, e.isRunNow = false) :
    SingleFlightInv (schedRun s tr) := by
  induction tr generalizing s with
  | nil => exact h
  | cons e es ih =>
      exact ih _ (singleFlight_step s e h (hn e (by simp)))
        (fun e' he' => hn e' (by simp [he']))

/-- C1.  When an execution of a registered task fails at wall-clock `now`
with `retryAttempts` strictly below `maxRetries`, `executeTask`'s failure
branch increments `retryAttempts` to `N = retryAttempts + 1` and sets
`nextRunTime = now + retryDelay * 2 ^ (N - 1)`, emitting no `taskFailed`
event; and when it fails with `retryAttempts = maxRetries`, it resets
`retryAttempts` to 0, emits `taskFailed`, and leaves `nextRunTime`
untouched (it keeps the `lastRunTime + interval` value set at execution
start, so the task resumes its normal interval-based schedule). -/
theorem C1_retry_backoff (t : Task) (now : Nat) :
    (t.retryAttempts < t.maxRetries →
      (settleFailure t now).task.retryAttempts = t.retryAttempts + 1 ∧
      (settleFailure t now).task.nextRunTime =
        some (now + t.retryDelay * 2 ^ (t.retryAttempts + 1 - 1)) ∧
      (settleFailure t now).taskFailedEmitted = false) ∧
    (t.retryAttempts = t.maxRetries →
      (settleFailure t now).task.retryAttempts = 0 ∧
      (settleFailure t now).taskFailedEmitted = true ∧
      (settleFailure t now).task.nextRunTime = t.nextRunTime ∧
      (settleFailure t now).task.running = false) := by
  constructor
  · intro h
    simp [settleFailure, h]
  · intro h
    simp [settleFailure, h]

/-- Witness for `C1_retry_backoff` at two concrete tasks: one with retry
budget remaining (1 of 3 attempts used) and one with the budget exhausted
(3 of 3). -/
theorem C1_retry_backoff_witness :
    ((settleFailure
        { interval := 10, enabled := true, lastRunTime := some 40,
          nextRunTime := some 50, retryAttempts := 1, maxRetries := 3,
          retryDelay := 7, timeout := none, running := true } 50).task.retryAttempts = 1 + 1 ∧
      (settleFailure
        { interval := 10, enabled := true, lastRunTime := some 40,
          nextRunTime := some 50, retryAttempts := 1, maxRetries := 3,
          retryDelay := 7, timeout := none, running := true } 50).task.nextRunTime =
        some (50 + 7 * 2 ^ (1 + 1 - 1)) ∧
      (settleFailure
        { interval := 10, enabled := true, lastRunTime := some 40,
          nextRunTime := some 50, retryAttempts := 1, maxRetries := 3,
          retryDelay := 7, timeout := none, running := true } 50).taskFailedEmitted = false) ∧
    ((settleFailure
        { interval := 10, enabled := true, lastRunTime := some 40,
          nextRunTime := some 50, retryAttempts := 3, maxRetries := 3,
          retryDelay := 7, timeout := none, running := true } 60).task.retryAttempts = 0 ∧
      (settleFailure
        { interval := 10, enabled := true, lastRunTime := some 40,
          nextRunTime := some 50, retryAttempts := 3, maxRetries := 3,
          retryDelay := 7, timeout := none, running := true } 60).taskFailedEmitted = true ∧
      (settleFailure
        { interval := 10, enabled := true, lastRunTime := some 40,
          nextRunTime := some 50, retryAttempts := 3, maxRetries := 3,
          retryDelay := 7, timeout := none, running := true } 60).task.nextRunTime =
        { interval := 10, enabled := true, lastRunTime := some 40,
          nextRunTime := some 50, retryAttempts := 3, maxRetries := 3,
          retryDelay := 7, timeout := none, running := true : Task }.nextRunTime ∧
      (settleFailure
        { interval := 10, enabled := true, lastRunTime := some 40,
          nextRunTime := some 50, retryAttempts := 3, maxRetries := 3,
          retryDelay := 7, timeout := none, running := true } 60).task.running = false) :=
  ⟨(C1_retry_backoff _ 50).1 (by decide), (C1_retry_backoff _ 60).2 rfl⟩

/-- Counterexample to C2 as stated: a task registered at time 0 with
interval 3 becomes due, a poll at time 5 dispatches an execution, and a
`runTaskNow` call at time 5 — which, in `TaskScheduler.runTaskNow`, enters
`executeTask` without consulting the running marker — dispatches a second
concurrent execution of the same task id: two executions are then
outstanding at once. -/
theorem C2_counterexample : ¬ ClaimC2Statement := by
  intro h
  have h2 := (h 3 1 1 none 0 [SchedEv.poll 5, SchedEv.runNow 5]).1
  revert h2
  decide

/-- Amended C2.  The at-most-one-outstanding-execution guarantee holds for
poll-driven scheduling without timeout abandonment: for a registered task
with no timeout configured, any trace of poll cycles and task completions
that contains no `runTaskNow` call keeps at most one execution in flight
(a `runTaskNow` call on a running task, or a re-dispatch after a timeout
abandonment while the abandoned callback is still pending, can produce two
concurrent executions).  The bound `retryAttempts ≤ maxRetries` holds in
every reachable state, for every event sequence. -/
theorem C2_amended_single_flight (interval maxRetries retryDelay : Nat)
    (timeout : Option Nat) (t0 : Nat) (trace : List SchedEv)
    (hn : ∀ e ∈ trace, e.isRunNow = false) (htm : timeout = none) :
    (schedRun (schedInit interval maxRetries retryDelay timeout t0) trace).inflight ≤ 1 ∧
    (schedRun (schedInit interval maxRetries retryDelay timeout t0) trace).task.retryAttempts
      ≤ maxRetries := by
  constructor
  · have h := singleFlight_run (schedInit interval maxRetries retryDelay timeout t0) trace
      (by constructor <;> simp [schedInit, registerTask, htm]) hn
    rcases h with ⟨-, hfl⟩
    rw [hfl]
    split <;> omega
  · exact (retryInv_run maxRetries _ trace
      (by constructor <;> simp [schedInit, registerTask])).2

/-- Witness for `C2_amended_single_flight`: a concrete two-event trace
(dispatch at time 5, successful completion at time 6) on a task registered
at time 0 with interval 3 and no timeout. -/
theorem C2_amended_single_flight_witness :
    (schedRun (schedInit 3 1 1 none 0) [SchedEv.poll 5, SchedEv.settleOk 6]).inflight ≤ 1 ∧
    (schedRun (schedInit 3 1 1 none 0)
      [SchedEv.poll 5, SchedEv.settleOk 6]).task.retryAttempts ≤ 1 :=
  C2_amended_single_flight 3 1 1 none 0 [SchedEv.poll 5, SchedEv.settleOk 6]
    (by decide) rfl

/-- Counterexample to C5 as stated: a task registered at time 0 with
interval 10, timeout 5 and retry budget 3 is dispatched by the poll at
time 10 and abandoned by the poll at time 20 (elapsed 10 > 5).  The
abandoned callback is still in flight; when it eventually rejects (here at
time 40), `executeTask`'s catch branch still runs against the shared task
record and mutates it — `retryAttempts` becomes 1 and `nextRunTime` is
moved to `40 + retryDelay` — contradicting part (b) of the claim. -/
theorem C5_counterexample : ¬ ClaimC5Statement := by
  intro h
  have hb := (h.2 (schedRun (schedInit 10 3 7 (some 5) 0)
      [SchedEv.poll 10, SchedEv.poll 20]) 40 (by decide) (by decide)).1
  revert hb
  decide

/-- Amended C5.  Part (a) of the claim holds: for an enabled running task
with a positive timeout `T`, a positive interval, and elapsed time since
`lastRunTime` exceeding `T`, the poll iteration clears the running marker,
sets `nextRunTime = now + interval`, and dispatches nothing in that same
iteration.  Part (b) must be weakened: the abandoned execution's eventual
rejection still runs `executeTask`'s normal failure bookkeeping against
the shared task record — with retry budget remaining it increments
`retryAttempts` and reschedules `nextRunTime` to `now + retryDelay *
2 ^ retryAttempts` — rather than being ignored. -/
theorem C5_amended_abandonment (t : Task) (now tmo : Nat)
    (hen : t.enabled = true) (hrun : t.running = true)
    (htm : t.timeout = some tmo) (htpos : 0 < tmo)
    (helap : tmo < elapsedSinceRun t now) (hint : 0 < t.interval) :
    ((pollTask t now).1.running = false ∧
     (pollTask t now).1.nextRunTime = some (now + t.interval) ∧
     (pollTask t now).2 = false) ∧
    (∀ (s : SchedState) (now2 : Nat), s.task.running = false → 0 < s.inflight →
      s.task.retryAttempts < s.task.maxRetries →
      (schedStep s (SchedEv.settleFail now2)).task.retryAttempts =
        s.task.retryAttempts + 1 ∧
      (schedStep s (SchedEv.settleFail now2)).task.nextRunTime =
        some (now2 + s.task.retryDelay * 2 ^ (s.task.retryAttempts + 1 - 1))) := by
  constructor
  · have h1 : pollTimeoutCheck t now =
        { t with running := false, nextRunTime := some (now + t.interval) } := by
      unfold pollTimeoutCheck
      simp [hrun, htm, htpos, helap]
    have h2 : pollTask t now =
        ({ t with running := false, nextRunTime := some (now + t.interval) }, false) := by
      unfold pollTask
      rw [if_neg (by simp [hen]), h1]
      unfold pollDispatch
      simp
      omega
    rw [h2]
    exact ⟨rfl, rfl, rfl⟩
  · intro s now2 hnr hfl hlt
    rw [schedStep_settleFail, if_neg (by omega)]
    constructor
    · show (settleFailure s.task now2).task.retryAttempts = s.task.retryAttempts + 1
      unfold settleFailure
      rw [if_pos hlt]
    · show (settleFailure s.task now2).task.nextRunTime =
        some (now2 + s.task.retryDelay * 2 ^ (s.task.retryAttempts + 1 - 1))
      unfold settleFailure
      rw [if_pos hlt]

theorem lookupList_setPosList_self (l : List (String × Position)) (i : String)
    (p : Position) : lookupList (setPosList l i p) i = some p := by
  induction l with
  | nil => simp [setPosList, lookupList]
  | cons q qs ih =>
      by_cases h : q.1 = i
      · simp [setPosList, lookupList, h]
      · simp [setPosList, lookupList, h, ih]

theorem getHistory_pushHistory_self (st : StoreState) (i : String)
    (r : HistoryRecord) : getHistory (pushHistory st i r) i = getHistory st i ++ [r] := by
  simp [getHistory, pushHistory]

/-- Witness for `C5_amended_abandonment`: a concrete running task (last
run at 10, timeout 5, interval 10) polled at time 20. -/
theorem C5_amended_abandonment_witness :
    ((pollTask
        { interval := 10, enabled := true, lastRunTime := some 10,
          nextRunTime := some 20, retryAttempts := 0, maxRetries := 3,
          retryDelay := 7, timeout := some 5, running := true } 20).1.running = false ∧
     (pollTask
        { interval := 10, enabled := true, lastRunTime := some 10,
          nextRunTime := some 20, retryAttempts := 0, maxRetries := 3,
          retryDelay := 7, timeout := some 5, running := true } 20).1.nextRunTime =
       some (20 + 10) ∧
     (pollTask
        { interval := 10, enabled := true, lastRunTime := some 10,
          nextRunTime := some 20, retryAttempts := 0, maxRetries := 3,
          retryDelay := 7, timeout := some 5, running := true } 20).2 = false) ∧
    (∀ (s : SchedState) (now2 : Nat), s.task.running = false → 0 < s.inflight →
      s.task.retryAttempts < s.task.maxRetries →
      (schedStep s (SchedEv.settleFail now2)).task.retryAttempts =
        s.task.retryAttempts + 1 ∧
      (schedStep s (SchedEv.settleFail now2)).task.nextRunTime =
        some (now2 + s.task.retryDelay * 2 ^ (s.task.retryAttempts + 1 - 1))) :=
  C5_amended_abandonment _ 20 5 rfl rfl rfl (by decide) (by decide) (by decide)

theorem updatePosition_spec (st : StoreState) (i : String) (q : Position)
    (u : PositionUpdates) (now : Nat) (hid : String)
    (h : lookupList st.positions i = some q) :
    updatePosition st i u now hid =
      Except.ok (pushHistory
        { st with positions := setPosList st.positions i (mergedPosition q u now) } i
        (updatedRecord i u now hid)) := by
  unfold updatePosition
  rw [h]

theorem savePositionStatus_eq (st : StoreState) (p : Position)
    (status : StatusResult) (now : Nat) (hid1 hid2 : String) (q : Position)
    (h : lookupList st.positions p.id = some q) :
    savePositionStatus st p status now hid1 hid2 =
      Except.ok (pushHistory
        { pushHistory st p.id (statusCheckRecord p status now hid1) with
            positions :=
              setPosList st.positions p.id
                (mergedPosition q (lastStatusUpdates status now) now) } p.id
        (updatedRecord p.id (lastStatusUpdates status now) now hid2)) := by
  unfold savePositionStatus
  exact updatePosition_spec _ _ q _ now hid2 h

theorem savePositionStatus_spec (st : StoreState) (p : Position)
    (status : StatusResult) (now : Nat) (hid1 hid2 : String) (q : Position)
    (h : lookupList st.positions p.id = some q) :
    ∃ st2, savePositionStatus st p status now hid1 hid2 = Except.ok st2 ∧
      getHistory st2 p.id = getHistory st p.id ++
        [statusCheckRecord p status now hid1,
         updatedRecord p.id (lastStatusUpdates status now) now hid2] ∧
      lookupList st2.positions p.id =
        some (mergedPosition q (lastStatusUpdates status now) now) := by
  refine ⟨_, savePositionStatus_eq st p status now hid1 hid2 q h, ?_, ?_⟩
  · rw [getHistory_pushHistory_self]
    show getHistory (pushHistory st p.id (statusCheckRecord p status now hid1)) p.id
        ++ _ = _
    rw [getHistory_pushHistory_self]
    simp
  · show lookupList (setPosList st.positions p.id
        (mergedPosition q (lastStatusUpdates status now) now)) p.id = _
    rw [lookupList_setPosList_self]

/-- The merged position written by `savePositionStatus` carries the new
snapshot as its whole `lastStatus` (full replacement). -/
theorem mergedPosition_lastStatus (q : Position) (status : StatusResult) (now : Nat) :
    (mergedPosition q (lastStatusUpdates status now) now).lastStatus =
      some (statusToLastStatus status now) := by
  simp [mergedPosition, applyUpdates, lastStatusUpdates]

/-- C10.  Every `updatePosition` call with a known id appends exactly one
`"updated"` history record whose metadata lists the updated field names,
in addition to merging the fields and bumping `updatedAt`; consequently
every successful `savePositionStatus` appends exactly two history records
for the position: one `"status_check"` followed by one `"updated"`. -/
theorem C10_two_history_records :
    (∀ (st : StoreState) (i : String) (q : Position) (u : PositionUpdates)
      (now : Nat) (hid : String), lookupList st.positions i = some q →
      ∃ st2, updatePosition st i u now hid = Except.ok st2 ∧
        getHistory st2 i = getHistory st i ++ [updatedRecord i u now hid] ∧
        (updatedRecord i u now hid).eventType = "updated" ∧
        (updatedRecord i u now hid).metadataUpdates = some u.keys ∧
        lookupList st2.positions i = some (mergedPosition q u now)) ∧
    (∀ (st : StoreState) (p : Position) (status : StatusResult) (now : Nat)
      (hid1 hid2 : String) (q : Position), lookupList st.positions p.id = some q →
      ∃ st2, savePositionStatus st p status now hid1 hid2 = Except.ok st2 ∧
        (getHistory st2 p.id).map (fun r => r.eventType) =
          (getHistory st p.id).map (fun r => r.eventType) ++
            ["status_check", "updated"]) := by
  constructor
  · intro st i q u now hid h
    rw [updatePosition_spec st i q u now hid h]
    refine ⟨_, rfl, ?_, rfl, rfl, ?_⟩
    · rw [getHistory_pushHistory_self]
      rfl
    · show lookupList (setPosList st.positions i (mergedPosition q u now)) i = _
      rw [lookupList_setPosList_self]
  · intro st p status now hid1 hid2 q h
    obtain ⟨st2, hok, hhist, -⟩ := savePositionStatus_spec st p status now hid1 hid2 q h
    refine ⟨st2, hok, ?_⟩
    rw [hhist]
    simp [statusCheckRecord, updatedRecord]

/-- Witness for `C10_two_history_records`: the concrete store `wStore`
updated directly and through `savePositionStatus`. -/
theorem C10_two_history_records_witness :
    (∃ st2, updatePosition wStore "pid" wUpd 7 "h9" = Except.ok st2 ∧
      getHistory st2 "pid" = getHistory wStore "pid" ++ [updatedRecord "pid" wUpd 7 "h9"] ∧
      (updatedRecord "pid" wUpd 7 "h9").eventType = "updated" ∧
      (updatedRecord "pid" wUpd 7 "h9").metadataUpdates = some wUpd.keys ∧
      lookupList st2.positions "pid" = some (mergedPosition wPos wUpd 7)) ∧
    (∃ st2, savePositionStatus wStore wPos wStatus 7 "h1" "h2" = Except.ok st2 ∧
      (getHistory st2 wPos.id).map (fun r => r.eventType) =
        (getHistory wStore wPos.id).map (fun r => r.eventType) ++
          ["status_check", "updated"]) :=
  ⟨C10_two_history_records.1 wStore "pid" wPos wUpd 7 "h9" rfl,
   C10_two_history_records.2 wStore wPos wStatus 7 "h1" "h2" wPos rfl⟩

theorem fetchPositionStatus_ok (p : Position) (inputs : FetchInputs) (now : Nat)
    (h : inputs.activeBinFetchFails = false) :
    ∃ s, fetchPositionStatus p inputs now = Except.ok s := by
  unfold fetchPositionStatus
  rw [h]
  by_cases he : inputs.enrichmentThrows <;> simp [he]

theorem checkPositionStatus_eq (st : StoreState) (walletMap : List (Int × List String))
    (p : Position) (inputs : FetchInputs) (bot sinkOk : Bool) (now : Nat)
    (hid1 hid2 : String) (s : StatusResult) (st2 : StoreState)
    (hs : fetchPositionStatus p inputs now = Except.ok s)
    (hsave : savePositionStatus st p s now hid1 hid2 = Except.ok st2) :
    checkPositionStatus st walletMap p inputs bot sinkOk now hid1 hid2 =
      Except.ok (st2, (checkForNotifications walletMap st2 p s bot sinkOk).1,
        (checkForNotifications walletMap st2 p s bot sinkOk).2) := by
  unfold checkPositionStatus
  rw [hs]
  show savePositionStatus st p s now hid1 hid2 >>= _ = _
  rw [hsave]
  rfl

theorem checkForNotifications_first_check (walletMap : List (Int × List String))
    (st : StoreState) (p : Position) (s : StatusResult) (sinkOk : Bool)
    (c : Int) (cs : List Int) (tp : TokenPair)
    (hlast : p.lastStatus = none)
    (htp : p.tokenPair = some tp)
    (hchat : getChatIdsByWallet walletMap p.userWallet = c :: cs) :
    checkForNotifications walletMap st p s true sinkOk =
      ([(c, buildMessageSections p s)],
        if sinkOk then none else some "send failed") := by
  unfold checkForNotifications
  have h1 : getChatIdForWallet walletMap st p.userWallet = some c := by
    unfold getChatIdForWallet
    rw [hchat]
  rw [h1]
  have hb : buildMessage p s = Except.ok (buildMessageSections p s) := by
    unfold buildMessage
    rw [htp]
  rw [hb]
  have h2 : shouldNotifyCalc p s = true := by
    unfold shouldNotifyCalc
    rw [hlast]
    simp
  rw [h2]
  cases sinkOk <;> simp

theorem newPositionMonitored_mem (p : Position) (s : StatusResult)
    (h : p.lastStatus = none) :
    MsgSection.newPositionMonitored ∈ buildMessageSections p s := by
  unfold buildMessageSections
  rw [h]
  simp

/-- Counterexample to C3 as stated: for a position stored without a
`tokenPair` (which `createPosition` accepts, see C7), the message build
inside `checkForNotifications`'s `try` block throws on the unguarded
`position.tokenPair.tokenASymbol` dereference before anything is sent;
the catch swallows it, so the successful `checkPositionStatus` call sends
zero notifications instead of exactly one. -/
theorem C3_counterexample : ¬ ClaimC3Statement := by
  intro h
  obtain ⟨st2, msg, derr, heq, -⟩ :=
    h wStore [(9, ["w"])] wPos wPos wInputs true 7 "h1" "h2" 9 []
      rfl rfl (by decide) (by decide)
  have h2 := congrArg sendsOf heq
  have h3 : sendsOf (checkPositionStatus wStore [(9, ["w"])] wPos wInputs
      true true 7 "h1" "h2") = [] := by decide
  rw [h3] at h2
  exact List.noConfusion h2

/-- Amended C3.  For a position whose `lastStatus` is absent AND whose
`tokenPair` is present (so the message build does not throw), any
successful `checkPositionStatus` call — with the notification bot
configured and a chat id resolving for the wallet — attempts exactly one
notification, and its message carries the "now being monitored" marker,
whatever the fetched `binInRange` value and whether or not the delivery
succeeds.  For a `tokenPair`-absent position the build's TypeError is
caught and nothing is sent. -/
theorem C3_amended_first_check (st : StoreState)
    (walletMap : List (Int × List String)) (p q : Position) (inputs : FetchInputs)
    (sinkOk : Bool) (now : Nat) (hid1 hid2 : String) (c : Int) (cs : List Int)
    (tp : TokenPair)
    (hlast : p.lastStatus = none)
    (htp : p.tokenPair = some tp)
    (hfetch : inputs.activeBinFetchFails = false)
    (hq : lookupList st.positions p.id = some q)
    (hchat : getChatIdsByWallet walletMap p.userWallet = c :: cs) :
    ∃ st2 msg derr,
      checkPositionStatus st walletMap p inputs true sinkOk now hid1 hid2 =
        Except.ok (st2, [(c, msg)], derr) ∧
      MsgSection.newPositionMonitored ∈ msg := by
  obtain ⟨s, hs⟩ := fetchPositionStatus_ok p inputs now hfetch
  obtain ⟨st2, hok, -, -⟩ := savePositionStatus_spec st p s now hid1 hid2 q hq
  refine ⟨st2, buildMessageSections p s,
    if sinkOk then none else some "send failed", ?_,
    newPositionMonitored_mem p s hlast⟩
  rw [checkPositionStatus_eq st walletMap p inputs true sinkOk now hid1 hid2 s st2 hs hok,
    checkForNotifications_first_check walletMap st2 p s sinkOk c cs tp hlast htp hchat]

/-- Witness for `C3_amended_first_check`: the concrete store `wStoreT`,
whose single position carries a token pair and no `lastStatus`, with the
wallet mapped to chat id 9. -/
theorem C3_amended_first_check_witness :
    ∃ st2 msg derr,
      checkPositionStatus wStoreT [(9, ["w"])] wPosT wInputs true true 7 "h1" "h2" =
        Except.ok (st2, [(9, msg)], derr) ∧
      MsgSection.newPositionMonitored ∈ msg :=
  C3_amended_first_check wStoreT [(9, ["w"])] wPosT wPosT wInputs true 7 "h1" "h2" 9 []
    tpW rfl rfl rfl (by decide) (by decide)

/-- C6.  When the notification sink's send throws, `checkPositionStatus`
still completes successfully — the error is caught inside
`checkForNotifications` — and the `"status_check"` history record and the
`lastStatus` overwrite persisted before the send remain committed in the
returned store. -/
theorem C6_sink_failure_isolated (st : StoreState)
    (walletMap : List (Int × List String)) (p q : Position) (inputs : FetchInputs)
    (now : Nat) (hid1 hid2 : String)
    (hq : lookupList st.positions p.id = some q)
    (hfetch : inputs.activeBinFetchFails = false) :
    ∃ status st2 sends derr,
      fetchPositionStatus p inputs now = Except.ok status ∧
      checkPositionStatus st walletMap p inputs true false now hid1 hid2 =
        Except.ok (st2, sends, derr) ∧
      (getHistory st2 p.id).map (fun r => r.eventType) =
        (getHistory st p.id).map (fun r => r.eventType) ++ ["status_check", "updated"] ∧
      lookupList st2.positions p.id =
        some (mergedPosition q (lastStatusUpdates status now) now) ∧
      (mergedPosition q (lastStatusUpdates status now) now).lastStatus =
        some (statusToLastStatus status now) := by
  obtain ⟨s, hs⟩ := fetchPositionStatus_ok p inputs now hfetch
  obtain ⟨st2, hok, hhist, hlook⟩ := savePositionStatus_spec st p s now hid1 hid2 q hq
  refine ⟨s, st2, _, _, hs,
    checkPositionStatus_eq st walletMap p inputs true false now hid1 hid2 s st2 hs hok,
    ?_, hlook, mergedPosition_lastStatus q s now⟩
  rw [hhist]
  simp [statusCheckRecord, updatedRecord]

/-- Witness for `C6_sink_failure_isolated`: the concrete store `wStore`
with a sink that throws on every send. -/
theorem C6_sink_failure_isolated_witness :
    ∃ status st2 sends derr,
      fetchPositionStatus wPos wInputs 7 = Except.ok status ∧
      checkPositionStatus wStore [(9, ["w"])] wPos wInputs true false 7 "h1" "h2" =
        Except.ok (st2, sends, derr) ∧
      (getHistory st2 wPos.id).map (fun r => r.eventType) =
        (getHistory wStore wPos.id).map (fun r => r.eventType) ++
          ["status_check", "updated"] ∧
      lookupList st2.positions wPos.id =
        some (mergedPosition wPos (lastStatusUpdates status 7) 7) ∧
      (mergedPosition wPos (lastStatusUpdates status 7) 7).lastStatus =
        some (statusToLastStatus status 7) :=
  C6_sink_failure_isolated wStore [(9, ["w"])] wPos wPos wInputs 7 "h1" "h2"
    (by decide) rfl

/-- Counterexample to C4 as stated: `checkForNotifications` compares the
fee `BN` objects with `!==` (reference inequality), so a fetch returning
value-identical but freshly allocated fee objects pushes "pending fees"
and "claimed fees" into the changes list and a notification is sent even
though no on-chain value differs. -/
theorem C4_counterexample : ¬ ClaimC4Statement := by
  intro h
  have h2 := h [(9, ["w"])] { positions := [], histories := fun _ => [] }
    pC4 lsC4 sC4 true true rfl rfl rfl
    ⟨rfl, rfl, ⟨rfl, rfl, rfl, rfl⟩, trivial⟩
  revert h2
  decide

theorem onChainChangesList_empty (ls : LastStatus) (s : StatusResult)
    (h : RefEqOnChain ls s) : onChainChangesList ls s = [] := by
  obtain ⟨h1, h2, h3, h4⟩ := h
  unfold onChainChangesList
  rw [if_neg (by simp [h1, h2])]
  rcases hf : s.fees with - | nf <;> rcases hlf : ls.fees with - | oldf <;>
    rcases hr : s.rewards with - | nr <;> rcases hlr : ls.rewards with - | oldr <;>
      simp_all

/-- Amended C4.  With `lastStatus` present, `binInRange` unchanged,
`priceRangeChanged` false, equal liquidity strings, and the fee and reward
objects reference-identical to the previous snapshot's (or absent on a
side), zero notifications are sent.  The source compares fee and reward
`BN` objects by reference, so value-equal but freshly fetched objects do
trigger an on-chain-updates notification. -/
theorem C4_amended_no_spurious (walletMap : List (Int × List String))
    (st : StoreState) (p : Position) (ls : LastStatus) (status : StatusResult)
    (bot sinkOk : Bool)
    (hlast : p.lastStatus = some ls)
    (hbin : status.binInRange = ls.binInRange)
    (hprc : status.priceRangeChanged = false)
    (href : RefEqOnChain ls status) :
    (checkForNotifications walletMap st p status bot sinkOk).1 = [] := by
  have hsn : shouldNotifyCalc p status = false := by
    unfold shouldNotifyCalc
    rw [hlast, hprc, hbin]
    simp [onChainChangesList_empty ls status href]
  unfold checkForNotifications
  cases bot with
  | false => simp
  | true =>
      cases hc : getChatIdForWallet walletMap st p.userWallet <;>
        [simp; cases hb : buildMessage p status <;> simp [hsn]]

/-- Witness for `C4_amended_no_spurious`: the C4 position rechecked with
reference-identical fee objects and no other trigger; zero sends. -/
theorem C4_amended_no_spurious_witness :
    (checkForNotifications [(9, ["w"])]
      { positions := [], histories := fun _ => [] } pC4 sC4b true true).1 = [] :=
  C4_amended_no_spurious [(9, ["w"])] { positions := [], histories := fun _ => [] }
    pC4 lsC4 sC4b true true rfl rfl rfl
    ⟨rfl, rfl, ⟨rfl, rfl, rfl, rfl⟩, trivial⟩

/-- Counterexample to C7's validation sentence: `createPosition` contains
no presence check, so a params object with no pool address (and no token
pair, bin range or wallet) is stored as-is and the call succeeds instead
of failing with a validation error. -/
theorem C7_counterexample : ¬ ClaimC7Statement := by
  intro h
  have h2 := h { positions := [], histories := fun _ => [] } badParams "fresh" 3
    (Or.inl rfl)
  revert h2
  decide

/-- Amended C7.  `createPosition` synthesizes the freshly generated id,
stamps `createdAt` and `updatedAt` with the creation time, defaults
`status` to ACTIVE with no `lastStatus`, stores the position, and writes
no history record — but it performs no presence validation: it succeeds
for every params object, including one missing the required fields. -/
theorem C7_amended_create (st : StoreState) (params : CreatePositionParams)
    (newId : String) (now : Nat) :
    ∃ pos st2, createPosition st params newId now = Except.ok (pos, st2) ∧
      pos.id = newId ∧ pos.createdAt = now ∧ pos.updatedAt = now ∧
      pos.status = PositionStatus.active ∧ pos.lastStatus = none ∧
      pos.poolAddress = params.poolAddress ∧ pos.userWallet = params.userWallet ∧
      st2.histories = st.histories ∧
      lookupList st2.positions newId = some pos := by
  refine ⟨_, _, rfl, rfl, rfl, rfl, rfl, rfl, rfl, rfl, rfl, ?_⟩
  exact lookupList_setPosList_self st.positions newId _

/-- Counterexample to C8 as stated: `serializePosition` keeps only
`activeBin`, `currentPrice`, `binInRange` and `timestamp` of `lastStatus`,
so a position whose snapshot carries `currentLowerPrice` /
`currentUpperPrice` or on-chain enrichment does not round-trip: the
enrichment is silently dropped. -/
theorem C8_counterexample : ¬ ClaimC8Statement := by
  intro h
  have h2 := congrArg Position.lastStatus (h c8Bad)
  simp [c8Bad, lsC8Bad, wPos, deserializePosition, serializePosition] at h2

/-- Amended C8.  A `Position` round-trips exactly through serialization
provided its `lastStatus` (if present) carries only the four persisted
fields, and its chat id is not the JavaScript-falsy 0 (the serializer
drops the enrichment fields and a zero chat id).  Arbitrary-precision
amounts travel as decimal strings and timestamps as ISO-8601 instants,
both losslessly. -/
theorem C8_amended_roundtrip (p : Position)
    (h1 : EnrichmentFree p) (h2 : p.chatId ≠ some 0) :
    deserializePosition (serializePosition p) = p := by
  obtain ⟨pid, pool, tp, lb, ub, lpl, upl, ila, ilb, sm, ss, sa, bm, bs, eba, aba,
    ep, ca, ua, cla, stt, lst, uw, ci, nft, fe, no⟩ := p
  unfold EnrichmentFree at h1
  cases sa <;> cases eba <;> cases aba <;> cases ci <;>
    rcases lst with - | ls
  all_goals try cases ls
  all_goals
    simp_all [deserializePosition, serializePosition, decimalValue, decimalDigits,
      Nat.ofDigits_digits, Position.mk.injEq, LastStatus.mk.injEq]

/-- Witness for `C8_amended_roundtrip` at the concrete position
`c8Good`. -/
theorem C8_amended_roundtrip_witness :
    deserializePosition (serializePosition c8Good) = c8Good :=
  C8_amended_roundtrip c8Good ⟨rfl, rfl, rfl, rfl, rfl, rfl, rfl⟩ (by decide)

theorem fetchPositionStatus_binInRange (p : Position) (inputs : FetchInputs)
    (now : Nat) (s : StatusResult)
    (h : fetchPositionStatus p inputs now = Except.ok s) :
    s.binInRange = binInRangeCalc p inputs.activeBinId := by
  unfold fetchPositionStatus at h
  by_cases hf : inputs.activeBinFetchFails
  · simp [hf] at h
  · rw [if_neg (by simp [hf])] at h
    by_cases he : inputs.enrichmentThrows
    · simp only [he, if_true] at h
      injection h with h
      subst h
      rfl
    · simp only [he, Bool.false_eq_true, if_false] at h
      injection h with h
      subst h
      rfl

/-- C9.  The computed `binInRange` is true exactly when
`lowerBinId ≤ activeBinId ≤ upperBinId`, both ends inclusive; and in the
concrete scenario with bin range 100 to 200, a fetch of active bin 150
yields `binInRange = true`, a later fetch of 250 yields
`binInRange = false`, and exactly one range-flip notification fires across
those two consecutive checks. -/
theorem C9_bin_in_range :
    (∀ (p : Position) (inputs : FetchInputs) (now : Nat) (l u : Int),
      p.lowerBinId = some l → p.upperBinId = some u →
      inputs.activeBinFetchFails = false →
      ∃ s, fetchPositionStatus p inputs now = Except.ok s ∧
        (s.binInRange = true ↔ (l ≤ inputs.activeBinId ∧ inputs.activeBinId ≤ u))) ∧
    (binInRangeOf (fetchPositionStatus c9Pos c9In1 10) = true ∧
     binInRangeOf (fetchPositionStatus c9P1 c9In2 20) = false ∧
     countFlips (sendsOf c9Run1 ++ sendsOf c9Run2) = 1) := by
  constructor
  · intro p inputs now l u hl hu hf
    obtain ⟨s, hs⟩ := fetchPositionStatus_ok p inputs now hf
    refine ⟨s, hs, ?_⟩
    rw [fetchPositionStatus_binInRange p inputs now s hs]
    unfold binInRangeCalc
    rw [hl, hu]
    simp
  · exact ⟨by decide, by decide, by decide⟩

/-- Witness for `C9_bin_in_range` (general part) at the concrete first
fetch of the scenario. -/
theorem C9_bin_in_range_witness :
    ∃ s, fetchPositionStatus c9Pos c9In1 10 = Except.ok s ∧
      (s.binInRange = true ↔ ((100 : Int) ≤ c9In1.activeBinId ∧ c9In1.activeBinId ≤ 200)) :=
  C9_bin_in_range.1 c9Pos c9In1 10 100 200 rfl rfl rfl

end MTR
